import Mathlib

/-!
Verification of the bytecode virtual machine in
`src/examples/behavior/bytecode.rs` against its specification.

The source file defines a `VM` with an operand stack (a `VecDeque<u64>`
used at the front, so the front is the top), an owned forward-only
iterator over the instruction words, `push`/`pop`, and a private
`execute` that dispatches one fetched word.  Collaborator effects are
issued as `println!` calls; we record them as abstract events.  Rust
panics (`unwrap` on `None`, the catch-all panic) are modelled as the
error value `VmError.Panic`, distinct from the typed errors the
specification names.

The specification additionally describes a `run()` loop, the opcodes
`ADD`, `DIVIDE` and `GET_<ATTR>`, and the typed error taxonomy
`StackUnderflow` / `TruncatedStream` / `UnknownOpcode` /
`ArithmeticError`; none of these exist in the source, so they are
modelled from the specification in clearly marked definitions.
-/

/-- The four typed errors of the specification (section 7), plus `Panic`,
which models a Rust panic in the source (`unwrap` on an empty pop or an
exhausted iterator, and the catch-all panic arm).  The source never
produces a typed error; the spec-modelled interpreter never panics. -/
inductive VmError where
  | StackUnderflow
  | TruncatedStream
  | UnknownOpcode
  | ArithmeticError
  | Panic
deriving DecidableEq, Repr

/-- A collaborator-visible effect of the source `execute`: each `println`
in the source, with its arguments in the printed order.  `setAttr name a b`
records `println!("set{}({}. {})", name, a, b)`. -/
inductive Event where
  | setAttr (name : String) (arg1 arg2 : Nat)
  | playSound (id : Nat)
  | spawnParticles (id : Nat)
deriving DecidableEq, Repr

/-- The interpreter state of the source: `stack: VecDeque<u64>` (front =
top, since the source only uses `push_front`/`pop_front`) and
`bytes: IntoIter<u64>` (the words not yet consumed).  `u64` values are
modelled as `Nat`; the source performs no arithmetic on them. -/
structure VM where
  stack : List Nat
  bytes : List Nat
deriving DecidableEq, Repr

def VM.INST_LITERAL : Nat := 100000000

def VM.INST_SET_HEALTH : Nat := 100000001

def VM.INST_SET_WISDOM : Nat := 100000002

def VM.INST_SET_AGILITY : Nat := 100000003

def VM.INST_PLAY_SOUND : Nat := 100000004

def VM.INST_SPAWN_PARTICLES : Nat := 100000005

/-- `VM::new(bytes)`: empty stack, the stream as given. -/
def VM.new (bytes : List Nat) : VM :=
  { stack := [], bytes := bytes }

/-- `VM::push`: `self.stack.push_front(value)`. -/
def VM.push (vm : VM) (value : Nat) : VM :=
  { vm with stack := value :: vm.stack }

/-- `VM::pop`: `self.stack.pop_front()` — returns `none` on an empty
stack (it is a total function; it cannot abort). -/
def VM.pop (vm : VM) : Option Nat × VM :=
  match vm.stack with
  | [] => (none, vm)
  | v :: rest => (some v, { vm with stack := rest })

/-- `VM::execute(value)`, one dispatched word.  The word has already been
fetched; `vm.bytes` holds the words after it.  The source pops with
`self.pop().unwrap()`, front first, rendered here as a pattern match on
the front of the stack; too few elements means the `unwrap` panics.
Returns the new state and the events printed by this instruction, or
`VmError.Panic` where the source panics (failed `unwrap`, or the
catch-all arm for an unrecognized word). -/
def VM.execute (vm : VM) (value : Nat) : Except VmError (VM × List Event) :=
  if value = VM.INST_LITERAL then
    match vm.bytes with
    | [] => .error .Panic
    | next :: rest => .ok (VM.push { vm with bytes := rest } next, [])
  else if value = VM.INST_SET_HEALTH ∨ value = VM.INST_SET_WISDOM ∨
      value = VM.INST_SET_AGILITY then
    match vm.stack with
    | amount :: wizard :: rest =>
      let name :=
        if value = VM.INST_SET_HEALTH then "Health"
        else if value = VM.INST_SET_WISDOM then "Wisdom"
        else "Agility"
      .ok ({ vm with stack := rest }, [Event.setAttr name amount wizard])
    | _ => .error .Panic
  else if value = VM.INST_PLAY_SOUND then
    match vm.stack with
    | sound :: rest => .ok ({ vm with stack := rest }, [Event.playSound sound])
    | _ => .error .Panic
  else if value = VM.INST_SPAWN_PARTICLES then
    match vm.stack with
    | texture :: rest => .ok ({ vm with stack := rest }, [Event.spawnParticles texture])
    | _ => .error .Panic
  else
    .error .Panic

/-- Modelled from the spec: the source defines no `run()`; section 4.2
specifies a fetch-decode-execute loop that terminates successfully when
the stream is exhausted and stops at the first failure.  This driver
fetches each word from the owned stream and dispatches it to the
source-translated `VM.execute`, concatenating the emitted events. -/
def VM.runCode (vm : VM) : Except VmError (VM × List Event) :=
  match h : vm.bytes with
  | [] => .ok (vm, [])
  | word :: rest =>
    match h2 : VM.execute { vm with bytes := rest } word with
    | .error e => .error e
    | .ok (vm', evs) =>
      match VM.runCode vm' with
      | .error e => .error e
      | .ok (vm'', evs') => .ok (vm'', evs ++ evs')
termination_by vm.bytes.length
decreasing_by
  simp only [VM.execute, VM.push] at h2
  repeat' split at h2
  all_goals (try cases h2)
  all_goals simp_all
  all_goals omega

namespace SpecModel

/-- Modelled from the spec: a call into the external collaborator
(section 6), with the arguments in the documented order:
`set_attribute(target_ref, attribute_name, amount)`,
`get_attribute(target_ref, attribute_name)`, `play_sound(sound_id)`,
`spawn_particles(effect_id)`. -/
inductive Call where
  | set_attribute (target : Nat) (name : String) (amount : Nat)
  | get_attribute (target : Nat) (name : String)
  | play_sound (id : Nat)
  | spawn_particles (id : Nat)
deriving DecidableEq, Repr

/-- Modelled from the spec: a collaborator is queried by `GET_<ATTR>`
instructions; its responses are a function from target reference and
attribute name to the stored value (section 6).  Set calls, sounds and
particles are recorded as `Call` events rather than interpreted. -/
abbrev Collab := Nat → String → Nat

/-- Modelled from the spec: opcode value for `GET_HEALTH`.  The source
assigns no value to the GET, ADD and DIVIDE opcodes of the spec table
(section 4.1); values are assigned continuing the reserved range
(≥ 100,000,000) of the source constants. -/
def GET_HEALTH : Nat := 100000006

/-- Modelled from the spec: opcode value for `GET_WISDOM` (see
`SpecModel.GET_HEALTH`). -/
def GET_WISDOM : Nat := 100000007

/-- Modelled from the spec: opcode value for `GET_AGILITY` (see
`SpecModel.GET_HEALTH`). -/
def GET_AGILITY : Nat := 100000008

/-- Modelled from the spec: opcode value for `ADD` (see
`SpecModel.GET_HEALTH`). -/
def ADD : Nat := 100000009

/-- Modelled from the spec: opcode value for `DIVIDE` (see
`SpecModel.GET_HEALTH`). -/
def DIVIDE : Nat := 100000010

/-- Modelled from the spec: one decoded instruction of the interpreter
described in sections 4.1 and 4.2 — the source `execute` has no GET, ADD
or DIVIDE arms and panics instead of returning the typed errors.  The
word `value` has been fetched; `vm.bytes` holds the words after it.
Per the spec table: `LITERAL` reads one more word (else
`TruncatedStream`); `ADD` pops b then a and pushes a+b; `DIVIDE` pops b
then a and pushes a/b (integer division), failing with
`ArithmeticError` when b = 0; `SET_<ATTR>` pops amount then target and
calls `set_attribute(target, attr, amount)`; `GET_<ATTR>` pops target
and pushes `get_attribute(target, attr)`; popping more operands than the
stack holds fails with `StackUnderflow`; an unrecognized word fails with
`UnknownOpcode`. -/
def execute (collab : Collab) (vm : VM) (value : Nat) :
    Except VmError (VM × List Call) :=
  if value = VM.INST_LITERAL then
    match vm.bytes with
    | [] => .error .TruncatedStream
    | next :: rest => .ok (VM.push { vm with bytes := rest } next, [])
  else if value = ADD then
    match vm.stack with
    | b :: a :: rest => .ok ({ vm with stack := (a + b) :: rest }, [])
    | _ => .error .StackUnderflow
  else if value = DIVIDE then
    match vm.stack with
    | b :: a :: rest =>
      if b = 0 then .error .ArithmeticError
      else .ok ({ vm with stack := (a / b) :: rest }, [])
    | _ => .error .StackUnderflow
  else if value = VM.INST_SET_HEALTH ∨ value = VM.INST_SET_WISDOM ∨
      value = VM.INST_SET_AGILITY then
    match vm.stack with
    | amount :: target :: rest =>
      let attr :=
        if value = VM.INST_SET_HEALTH then "health"
        else if value = VM.INST_SET_WISDOM then "wisdom"
        else "agility"
      .ok ({ vm with stack := rest }, [Call.set_attribute target attr amount])
    | _ => .error .StackUnderflow
  else if value = GET_HEALTH ∨ value = GET_WISDOM ∨ value = GET_AGILITY then
    match vm.stack with
    | target :: rest =>
      let attr :=
        if value = GET_HEALTH then "health"
        else if value = GET_WISDOM then "wisdom"
        else "agility"
      .ok ({ vm with stack := collab target attr :: rest },
           [Call.get_attribute target attr])
    | _ => .error .StackUnderflow
  else if value = VM.INST_PLAY_SOUND then
    match vm.stack with
    | sound :: rest => .ok ({ vm with stack := rest }, [Call.play_sound sound])
    | _ => .error .StackUnderflow
  else if value = VM.INST_SPAWN_PARTICLES then
    match vm.stack with
    | texture :: rest =>
      .ok ({ vm with stack := rest }, [Call.spawn_particles texture])
    | _ => .error .StackUnderflow
  else
    .error .UnknownOpcode

/-- Modelled from the spec: `run()` (section 4.2) — repeatedly fetch the
next word and execute it until the stream is exhausted (success) or an
instruction fails (the typed error is returned and execution stops
immediately).  The source defines no run loop. -/
def run (collab : Collab) (vm : VM) : Except VmError (VM × List Call) :=
  match h : vm.bytes with
  | [] => .ok (vm, [])
  | word :: rest =>
    match h2 : execute collab { vm with bytes := rest } word with
    | .error e => .error e
    | .ok (vm', calls) =>
      match run collab vm' with
      | .error e => .error e
      | .ok (vm'', calls') => .ok (vm'', calls ++ calls')
termination_by vm.bytes.length
decreasing_by
  simp only [execute, VM.push] at h2
  repeat' split at h2
  all_goals (try cases h2)
  all_goals simp_all
  all_goals omega

/-- Modelled from the spec: the collaborator of the end-to-end scenario
(section 8) — it reports health 45, agility 7 and wisdom 11 for target
0 (other targets and attributes are irrelevant to the scenario and
report 0). -/
def demoCollab : Collab := fun target attr =>
  if target = 0 then
    if attr = "health" then 45
    else if attr = "agility" then 7
    else if attr = "wisdom" then 11
    else 0
  else 0

/-- Modelled from the spec: the instruction stream of the end-to-end
scenario (section 8 and the worked example at the top of the source). -/
def demoStream : List Nat :=
  [VM.INST_LITERAL, 0, VM.INST_LITERAL, 0, GET_HEALTH,
   VM.INST_LITERAL, 0, GET_AGILITY,
   VM.INST_LITERAL, 0, GET_WISDOM, ADD,
   VM.INST_LITERAL, 2, DIVIDE, ADD, VM.INST_SET_HEALTH]

end SpecModel

/-- Input arity of each recognized opcode, from the spec table (section
4.1) restricted to the opcodes the source defines: `LITERAL` pops 0,
`SET_<ATTR>` pops 2, `PLAY_SOUND` and `SPAWN_PARTICLES` pop 1; `none`
for an unrecognized word. -/
def VM.inputArity (value : Nat) : Option Nat :=
  if value = VM.INST_LITERAL then some 0
  else if value = VM.INST_SET_HEALTH ∨ value = VM.INST_SET_WISDOM ∨
      value = VM.INST_SET_AGILITY then some 2
  else if value = VM.INST_PLAY_SOUND ∨ value = VM.INST_SPAWN_PARTICLES then some 1
  else none

/-- The collaborator calls the end-to-end scenario emits, in order:
three attribute reads, then the single attribute write. -/
def SpecModel.demoCalls : List SpecModel.Call :=
  [.get_attribute 0 "health", .get_attribute 0 "agility",
   .get_attribute 0 "wisdom", .set_attribute 0 "health" 54]

/-- Unfolding lemma for `VM.runCode` on an exhausted stream. -/
theorem VM.runCode_nil (stack : List Nat) :
    VM.runCode ⟨stack, []⟩ = .ok (⟨stack, []⟩, []) := by
  rw [VM.runCode]

/-- Unfolding lemma for `VM.runCode` on a stream with a next word. -/
theorem VM.runCode_cons (stack : List Nat) (word : Nat) (rest : List Nat) :
    VM.runCode ⟨stack, word :: rest⟩ =
      match h2 : VM.execute ⟨stack, rest⟩ word with
      | .error e => .error e
      | .ok (vm', evs) =>
        match VM.runCode vm' with
        | .error e => .error e
        | .ok (vm'', evs') => .ok (vm'', evs ++ evs') := by
  rw [VM.runCode]

/-- Unfolding lemma for `SpecModel.run` on an exhausted stream. -/
theorem SpecModel.run_nil (c : SpecModel.Collab) (stack : List Nat) :
    SpecModel.run c ⟨stack, []⟩ = .ok (⟨stack, []⟩, []) := by
  rw [SpecModel.run]

/-- Unfolding lemma for `SpecModel.run` on a stream with a next word. -/
theorem SpecModel.run_cons (c : SpecModel.Collab) (stack : List Nat) (word : Nat)
    (rest : List Nat) :
    SpecModel.run c ⟨stack, word :: rest⟩ =
      match h2 : SpecModel.execute c ⟨stack, rest⟩ word with
      | .error e => .error e
      | .ok (vm', calls) =>
        match SpecModel.run c vm' with
        | .error e => .error e
        | .ok (vm'', calls') => .ok (vm'', calls ++ calls') := by
  rw [SpecModel.run]

/-- C1: the source arm for SET_HEALTH / SET_WISDOM / SET_AGILITY pops the
amount first and the target second, and issues exactly one collaborator
call for the instruction — but that call carries the amount as its first
argument and the target as its second, not the documented order (target
first): on stack [54, 0] (top = 54 = amount, below = 0 = target) the
source prints setHealth(54. 0). -/
theorem C1_set_attr_call_emits_amount_first :
    VM.execute ⟨[54, 0], []⟩ VM.INST_SET_HEALTH =
      .ok (⟨[], []⟩, [Event.setAttr "Health" 54 0]) := rfl

/-- C2: running the worked-example stream from an empty stack against the
collaborator that reports health 45, agility 7 and wisdom 11 for target
0 terminates successfully with an empty operand stack and invokes
set_attribute(0, "health", 54) exactly once. -/
theorem C2_end_to_end_scenario :
    SpecModel.run SpecModel.demoCollab (VM.new SpecModel.demoStream) =
      .ok (⟨[], []⟩, SpecModel.demoCalls) ∧
    List.count (SpecModel.Call.set_attribute 0 "health" 54)
      SpecModel.demoCalls = 1 := by
  constructor
  · simp [SpecModel.run_cons, SpecModel.run_nil, SpecModel.execute,
      SpecModel.demoCollab, SpecModel.demoStream, SpecModel.demoCalls, VM.new,
      VM.push, SpecModel.GET_HEALTH, SpecModel.GET_WISDOM, SpecModel.GET_AGILITY,
      SpecModel.ADD, SpecModel.DIVIDE, VM.INST_LITERAL, VM.INST_SET_HEALTH,
      VM.INST_SET_WISDOM, VM.INST_SET_AGILITY, VM.INST_PLAY_SOUND,
      VM.INST_SPAWN_PARTICLES]
  · decide

/-- C3: on a stack [..., a, b] with b on top, DIVIDE pops b first, then
a, and pushes a / b (integer division) when b is nonzero; when b is zero
it fails with ArithmeticError and the run halts immediately with no
result pushed, whatever instructions remain. -/
theorem C3_divide_semantics (c : SpecModel.Collab) (a b : Nat)
    (rest bytes more : List Nat) :
    (b ≠ 0 → SpecModel.execute c ⟨b :: a :: rest, bytes⟩ SpecModel.DIVIDE =
        .ok (⟨a / b :: rest, bytes⟩, [])) ∧
    (b = 0 → SpecModel.run c ⟨b :: a :: rest, SpecModel.DIVIDE :: more⟩ =
        .error .ArithmeticError) := by
  constructor
  · intro h
    simp [SpecModel.execute, SpecModel.DIVIDE, SpecModel.ADD, VM.INST_LITERAL, h]
  · intro h
    subst h
    have he : SpecModel.execute c ⟨0 :: a :: rest, more⟩ SpecModel.DIVIDE =
        .error .ArithmeticError := by
      simp [SpecModel.execute, SpecModel.DIVIDE, SpecModel.ADD, VM.INST_LITERAL]
    rw [SpecModel.run_cons]
    split
    · rename_i e hE
      rw [he] at hE
      cases hE
      rfl
    · rename_i vm' calls hE
      rw [he] at hE
      cases hE

/-- C3, witness: DIVIDE at b = 2 divides (7 / 2 = 3); at b = 0 the run
fails with ArithmeticError. -/
theorem C3_divide_witness :
    SpecModel.execute (fun _ _ => 0) ⟨[2, 7], []⟩ SpecModel.DIVIDE =
      .ok (⟨[3], []⟩, []) ∧
    SpecModel.run (fun _ _ => 0) ⟨[0, 7], [SpecModel.DIVIDE]⟩ =
      .error .ArithmeticError :=
  ⟨(C3_divide_semantics (fun _ _ => 0) 7 2 [] [] []).1 (by decide),
   (C3_divide_semantics (fun _ _ => 0) 7 0 [] [] []).2 rfl⟩

/-- C4, counterexample: executing SET_HEALTH on an empty stack fails with
the panic the source's unwrap raises, not with a typed StackUnderflow —
the source defines no typed errors at all. -/
theorem C4_counterexample_underflow_is_panic :
    VM.execute ⟨[], []⟩ VM.INST_SET_HEALTH = .error .Panic ∧
    VM.execute ⟨[], []⟩ VM.INST_SET_HEALTH ≠ .error .StackUnderflow := by
  constructor
  · rfl
  · simp [VM.execute]

/-- C4, amended: for every recognized opcode whose input arity is n and
every stack holding fewer than n values, the source execute panics (the
unwrap on an empty pop), and no collaborator call is issued for that
instruction (the error result carries no events). -/
theorem C4_underflow_panics (value n : Nat) (vm : VM)
    (ha : VM.inputArity value = some n) (hlt : vm.stack.length < n) :
    VM.execute vm value = .error .Panic := by
  obtain ⟨stack, bytes⟩ := vm
  simp only [VM.inputArity] at ha
  split at ha
  · cases ha
    omega
  · split at ha
    · cases ha
      rename_i hset
      cases stack with
      | nil => rcases hset with h | h | h <;> subst h <;> rfl
      | cons x t =>
        cases t with
        | nil => rcases hset with h | h | h <;> subst h <;> rfl
        | cons y s =>
          simp only [List.length_cons] at hlt
          omega
    · split at ha
      · cases ha
        rename_i hps
        cases stack with
        | nil => rcases hps with h | h <;> subst h <;> rfl
        | cons x t =>
          simp only [List.length_cons] at hlt
          omega
      · cases ha

/-- C4, witness: PLAY_SOUND has input arity 1 and panics on the empty
stack. -/
theorem C4_underflow_witness :
    VM.inputArity VM.INST_PLAY_SOUND = some 1 ∧
    VM.execute ⟨[], []⟩ VM.INST_PLAY_SOUND = .error .Panic :=
  ⟨rfl, C4_underflow_panics VM.INST_PLAY_SOUND 1 ⟨[], []⟩ rfl (by decide)⟩

/-- C5, counterexample: running the one-word stream [LITERAL] fails with
the panic of the source's unwrap on the exhausted iterator, not with a
typed TruncatedStream. -/
theorem C5_counterexample_truncation_is_panic :
    VM.runCode (VM.new [VM.INST_LITERAL]) = .error .Panic ∧
    VM.runCode (VM.new [VM.INST_LITERAL]) ≠ .error .TruncatedStream := by
  constructor
  · simp [VM.runCode_cons, VM.execute, VM.new]
  · simp [VM.runCode_cons, VM.execute, VM.new]

/-- C5, amended: when LITERAL is decoded with no operand word remaining
(it is the last word of the stream), the source panics (unwrap on the
exhausted iterator), both at the single dispatch and for the whole run. -/
theorem C5_truncated_literal_panics (stack : List Nat) :
    VM.execute ⟨stack, []⟩ VM.INST_LITERAL = .error .Panic ∧
    VM.runCode ⟨stack, [VM.INST_LITERAL]⟩ = .error .Panic := by
  constructor
  · rfl
  · simp [VM.runCode_cons, VM.execute]

/-- C6, counterexample: the word 42 in opcode position fails with the
panic of the source's catch-all arm, not with a typed UnknownOpcode. -/
theorem C6_counterexample_unknown_is_panic :
    VM.execute (VM.new []) 42 = .error .Panic ∧
    VM.execute (VM.new []) 42 ≠ .error .UnknownOpcode := by
  constructor
  · rfl
  · simp [VM.execute, VM.new]

/-- C6, amended: every word matching no defined opcode makes the source
execute panic (the catch-all arm), and the run stops there with that
panic — nothing is swallowed, but no typed UnknownOpcode exists in the
source. -/
theorem C6_unrecognized_word_panics (value : Nat) (stack bytes rest : List Nat)
    (h : VM.inputArity value = none) :
    VM.execute ⟨stack, bytes⟩ value = .error .Panic ∧
    VM.runCode ⟨stack, value :: rest⟩ = .error .Panic := by
  simp only [VM.inputArity] at h
  split at h
  · cases h
  · split at h
    · cases h
    · split at h
      · cases h
      · rename_i h1 h2 h3
        push_neg at h3
        obtain ⟨h3a, h3b⟩ := h3
        have he : ∀ bs : List Nat, VM.execute ⟨stack, bs⟩ value = .error .Panic := by
          intro bs
          unfold VM.execute
          rw [if_neg h1, if_neg h2, if_neg h3a, if_neg h3b]
        refine ⟨he bytes, ?_⟩
        rw [VM.runCode_cons]
        split
        · rename_i e hE
          rw [he rest] at hE
          cases hE
          rfl
        · rename_i vm' evs hE
          rw [he rest] at hE
          cases hE

/-- C6, witness: the word 42 is recognized by no opcode; executing it
panics and the run propagates the panic. -/
theorem C6_unrecognized_witness :
    VM.inputArity 42 = none ∧
    (VM.execute ⟨[], []⟩ 42 = .error .Panic ∧
     VM.runCode ⟨[], [42]⟩ = .error .Panic) :=
  ⟨rfl, C6_unrecognized_word_panics 42 [] [] [] rfl⟩

/-- C7: for every value v, running the two-word stream [LITERAL, v] from
an empty stack terminates successfully with the operand stack holding
exactly [v] (and no collaborator call). -/
theorem C7_literal_pushes_value (v : Nat) :
    VM.runCode (VM.new [VM.INST_LITERAL, v]) = .ok (⟨[v], []⟩, []) := by
  simp [VM.runCode_cons, VM.runCode_nil, VM.execute, VM.new, VM.push]

/-- C8: on a stack [..., a, b] with b on top, ADD pops b, then a, and
pushes a + b; and ADD is order-independent — pushing a then b then
executing ADD gives the same result as pushing b then a. -/
theorem C8_add_semantics (c : SpecModel.Collab) (vm : VM) (a b : Nat)
    (rest bytes : List Nat) :
    SpecModel.execute c ⟨b :: a :: rest, bytes⟩ SpecModel.ADD =
      .ok (⟨(a + b) :: rest, bytes⟩, []) ∧
    SpecModel.execute c ((vm.push a).push b) SpecModel.ADD =
      SpecModel.execute c ((vm.push b).push a) SpecModel.ADD := by
  constructor
  · simp [SpecModel.execute, SpecModel.ADD, VM.INST_LITERAL]
  · simp [SpecModel.execute, SpecModel.ADD, VM.INST_LITERAL, VM.push,
      Nat.add_comm]

/-- C9: pop on an interpreter whose operand stack is empty returns none
and leaves the state unchanged; pop is a total function, so it never
aborts whatever the stack depth. -/
theorem C9_pop_empty_returns_none (vm : VM) (h : vm.stack = []) :
    vm.pop = (none, vm) := by
  simp [VM.pop, h]

/-- C9, witness: pop on the freshly constructed (empty-stack) VM. -/
theorem C9_pop_empty_witness :
    (VM.new []).stack = [] ∧ (VM.new []).pop = (none, VM.new []) :=
  ⟨rfl, C9_pop_empty_returns_none (VM.new []) rfl⟩

/-- C10: the operand stack is last-in-first-out under push and pop: for
every state and value, push v then pop returns v and restores the state
exactly, the remaining instruction stream included. -/
theorem C10_push_then_pop (vm : VM) (v : Nat) :
    (vm.push v).pop = (some v, vm) := rfl
